import Mathlib

/-!
Verification of the installment / month-window / summary logic of the
personal finance tracker (`src/main.py`).

The embedding mirrors the Python code:
  * `Date`, `addMonths` — `datetime.date` plus `dateutil.relativedelta(months=i)`
    (month arithmetic with the day clamped to the last valid day of the
    target month; `dateutil` computes each offset from the original date,
    not cumulatively, exactly as `start_date + relativedelta(months=i)` does);
  * `Gasto`, `Renda`, `Store` — the `gastos` and `renda` tables;
  * `adicionarRows` / `adicionar` — the insert loop of the `/adicionar` handler
    (`for i in range(parcelas): ... INSERT ... (descricao, valor, categoria,
    date_str, i+1, parcelas, agrupamento_id)`);
  * `adicionarTx` — the same loop under the `with conn:` transaction semantics
    (commit all on success, roll back to the original store on any failure);
  * `deletar`, `deletar_serie` — the two DELETE handlers;
  * `home` — the window filter, per-category aggregation, income total and
    balance of the `/` handler;
  * `resolveMes` — the Python-truthiness month defaulting
    (`current_mes = mes if mes else today.month`).

Monetary amounts are modelled as exact rationals (`ℚ`).
-/

namespace Financeiro

/-- A calendar date as the Python `datetime.date` triple. -/
structure Date where
  year : Int
  month : Nat
  day : Nat
deriving Repr, DecidableEq

/-- Gregorian leap-year test, as `calendar.isleap`. -/
def isLeap (y : Int) : Bool :=
  y % 4 == 0 && (y % 100 != 0 || y % 400 == 0)

/-- Number of days in a month, as `calendar.monthrange(y, m)[1]`. -/
def daysInMonth (y : Int) (m : Nat) : Nat :=
  if m = 2 then (if isLeap y then 29 else 28)
  else if m = 4 ∨ m = 6 ∨ m = 9 ∨ m = 11 then 30
  else 31

/-- `d + relativedelta(months := i)`: advance the month (with year rollover)
and clamp the day to the last valid day of the target month, which is how
`dateutil.relativedelta` normalizes an overflowing day-of-month. `i` may be
negative (used by the month navigation with `months = ±1`). -/
def addMonths (d : Date) (i : Int) : Date :=
  let total : Int := (d.month : Int) - 1 + i
  let y : Int := d.year + total / 12
  let m : Nat := (total % 12).toNat + 1
  { year := y, month := m, day := min d.day (daysInMonth y m) }

/-- Strict calendar order on dates (lexicographic year, month, day). -/
def dateLt (a b : Date) : Bool :=
  a.year < b.year ||
    (a.year == b.year &&
      (a.month < b.month || (a.month == b.month && a.day < b.day)))

/-- A row of the `gastos` table. -/
structure Gasto where
  id : Nat
  descricao : String
  valor : ℚ
  categoria : String
  data : Date
  parcela_atual : Int
  total_parcelas : Int
  agrupamento_id : Option String
deriving Repr, DecidableEq

/-- A row of the `renda` table. -/
structure Renda where
  id : Nat
  descricao : String
  valor : ℚ
deriving Repr, DecidableEq

/-- The persistent state: the two tables. -/
structure Store where
  gastos : List Gasto
  renda : List Renda
deriving Repr, DecidableEq

/-- The rows built by the `/adicionar` loop
`for i in range(parcelas): INSERT (descricao, valor, categoria,
start_date + relativedelta(months=i), i+1, parcelas, agrupamento_id)`.
Python's `range(parcelas)` is empty when `parcelas ≤ 0`, which
`parcelas.toNat` reproduces. `gid` is the freshly generated
`str(uuid.uuid4())`; `nextId` models the AUTOINCREMENT id counter. -/
def adicionarRows (descricao : String) (valor : ℚ) (categoria : String)
    (start : Date) (parcelas : Int) (gid : String) (nextId : Nat) : List Gasto :=
  (List.range parcelas.toNat).map fun i =>
    { id := nextId + i
      descricao := descricao
      valor := valor
      categoria := categoria
      data := addMonths start (i : Int)
      parcela_atual := (i : Int) + 1
      total_parcelas := parcelas
      agrupamento_id := some gid }

/-- The `/adicionar` handler's effect on the store (all inserts succeed). -/
def adicionar (s : Store) (descricao : String) (valor : ℚ) (categoria : String)
    (start : Date) (parcelas : Int) (gid : String) (nextId : Nat) : Store :=
  { s with gastos := s.gastos ++ adicionarRows descricao valor categoria start parcelas gid nextId }

/-- Run the insert loop against a per-row failure oracle `ok` (an INSERT that
raises maps to `ok r = false`); `none` models the exception escaping the loop. -/
def insertAll (ok : Gasto → Bool) (acc : List Gasto) : List Gasto → Option (List Gasto)
  | [] => some acc
  | r :: rs => if ok r then insertAll ok (acc ++ [r]) rs else none

/-- The `with conn:` transaction around the insert loop: on normal exit the
accumulated inserts are committed, on an exception the transaction is rolled
back and the store is unchanged. -/
def adicionarTx (ok : Gasto → Bool) (s : Store) (descricao : String) (valor : ℚ)
    (categoria : String) (start : Date) (parcelas : Int) (gid : String) (nextId : Nat) : Store :=
  match insertAll ok s.gastos (adicionarRows descricao valor categoria start parcelas gid nextId) with
  | some gs => { s with gastos := gs }
  | none => s

/-- `DELETE FROM gastos WHERE id = ?`. -/
def deletar (s : Store) (id : Nat) : Store :=
  { s with gastos := s.gastos.filter fun g => g.id ≠ id }

/-- `DELETE FROM gastos WHERE agrupamento_id = ?`. A row whose
`agrupamento_id` is NULL never matches the SQL equality, hence survives;
`none ≠ some gid` reproduces that. -/
def deletar_serie (s : Store) (gid : String) : Store :=
  { s with gastos := s.gastos.filter fun g => g.agrupamento_id ≠ some gid }

/-- `strftime('%Y-%m', data) = 'YYYY-MM'`: the row's date lies in the
viewed month window. -/
def inWindow (mes : Nat) (ano : Int) (g : Gasto) : Bool :=
  g.data.year == ano && g.data.month == mes

/-- The month-filtered expense query of the `/` handler. -/
def gastosDoMes (s : Store) (mes : Nat) (ano : Int) : List Gasto :=
  s.gastos.filter (inWindow mes ano)

/-- `SELECT categoria, SUM(valor) ... GROUP BY categoria` over the window. -/
def categoriasDb (gs : List Gasto) : List (String × ℚ) :=
  ((gs.map (fun g => g.categoria)).dedup).map fun c =>
    (c, ((gs.filter fun g => g.categoria = c).map fun g => g.valor).sum)

/-- The summary values computed by the `/` handler. -/
structure Summary where
  labels : List String
  data : List ℚ
  total_geral : ℚ
  renda_mensal : ℚ
  saldo_estimado : ℚ
deriving Repr, DecidableEq

/-- The `/` handler's aggregation: category totals for the month,
`total_geral = sum(data)`, `renda_mensal = sum of ALL renda rows`
(the income query has no month filter), and
`saldo_estimado = renda_mensal - total_geral`. -/
def home (s : Store) (mes : Nat) (ano : Int) : Summary :=
  let cats := categoriasDb (gastosDoMes s mes ano)
  let data := cats.map Prod.snd
  let total_geral := data.sum
  let renda_mensal := (s.renda.map fun r => r.valor).sum
  { labels := cats.map Prod.fst
    data := data
    total_geral := total_geral
    renda_mensal := renda_mensal
    saldo_estimado := renda_mensal - total_geral }

/-- `current_mes = mes if mes else today.month`: Python truthiness, so both
an absent month and an explicit `mes = 0` fall back to today's month. -/
def resolveMes (mes : Option Int) (todayMes : Int) : Int :=
  match mes with
  | none => todayMes
  | some m => if m = 0 then todayMes else m

/-- The previous/next navigation windows of the `/` handler:
`datetime(ano, mes, 1) ± relativedelta(months=1)`, read back as
`(month, year)` pairs. -/
def navWindows (mes : Nat) (ano : Int) : (Nat × Int) × (Nat × Int) :=
  let d : Date := { year := ano, month := mes, day := 1 }
  let p := addMonths d (-1)
  let n := addMonths d 1
  ((p.month, p.year), (n.month, n.year))

/-! ### Helper lemmas -/

theorem sum_map_filter_split {α : Type} (p : α → Bool) (v : α → ℚ) (l : List α) :
    ((l.filter p).map v).sum + ((l.filter fun x => !(p x)).map v).sum = (l.map v).sum := by
  induction l with
  | nil => simp
  | cons a t ih =>
    by_cases h : p a = true <;> simp [List.filter_cons, h] <;> linarith [ih]

theorem sum_over_keys {α κ : Type} [DecidableEq κ] (k : α → κ) (v : α → ℚ) :
    ∀ (ks : List κ) (l : List α), ks.Nodup → (∀ x ∈ l, k x ∈ ks) →
      (ks.map fun c => ((l.filter fun x => k x = c).map v).sum).sum = (l.map v).sum := by
  intro ks
  induction ks with
  | nil =>
    intro l _ hcov
    have hl : l = [] := by
      cases l with
      | nil => rfl
      | cons a t => exact absurd (hcov a (List.mem_cons_self a t)) (List.not_mem_nil _)
    simp [hl]
  | cons c ks ih =>
    intro l hnd hcov
    have hc : c ∉ ks := (List.nodup_cons.mp hnd).1
    have hnd' : ks.Nodup := (List.nodup_cons.mp hnd).2
    have hsplit := sum_map_filter_split (fun x => decide (k x = c)) v l
    have htail : (ks.map fun c' => ((l.filter fun x => k x = c').map v).sum).sum
        = (ks.map fun c' =>
            (((l.filter fun x => !(decide (k x = c))).filter fun x => k x = c').map v).sum).sum := by
      congr 1
      refine List.map_congr_left ?_
      intro c' hc'
      have hne : c' ≠ c := fun h => hc (h ▸ hc')
      congr 1
      congr 1
      rw [List.filter_filter]
      refine (List.filter_congr ?_).symm
      intro x _
      by_cases h : k x = c'
      · simp [h, hne]
      · simp [h]
    have hcov' : ∀ x ∈ l.filter fun x => !(decide (k x = c)), k x ∈ ks := by
      intro x hx
      rw [List.mem_filter] at hx
      rcases List.mem_cons.mp (hcov x hx.1) with h | h
      · exfalso; simp [h] at hx
      · exact h
    have hih := ih (l.filter fun x => !(decide (k x = c))) hnd' hcov'
    simp only [List.map_cons, List.sum_cons]
    rw [htail, hih]
    linarith [hsplit]

theorem addMonths_strictMono (d : Date) (i j : Int) (hij : i < j) :
    dateLt (addMonths d i) (addMonths d j) = true := by
  unfold addMonths dateLt
  simp only [Bool.or_eq_true, Bool.and_eq_true, decide_eq_true_eq, beq_iff_eq]
  omega

theorem addMonths_month_index (d : Date) (i : Int) :
    12 * (addMonths d i).year + ((addMonths d i).month : Int) - 1
      = 12 * d.year + (d.month : Int) - 1 + i ∧
    1 ≤ (addMonths d i).month ∧ (addMonths d i).month ≤ 12 ∧
    (addMonths d i).day = min d.day (daysInMonth (addMonths d i).year (addMonths d i).month) := by
  refine ⟨?_, ?_, ?_, ?_⟩ <;> simp only [addMonths] <;> omega

theorem adicionarRows_length (descricao : String) (valor : ℚ) (categoria : String)
    (start : Date) (parcelas : Int) (gid : String) (nextId : Nat) :
    (adicionarRows descricao valor categoria start parcelas gid nextId).length
      = parcelas.toNat := by
  simp [adicionarRows]

theorem adicionarRows_getElem (descricao : String) (valor : ℚ) (categoria : String)
    (start : Date) (parcelas : Int) (gid : String) (nextId : Nat) (i : Nat)
    (hi : i < (adicionarRows descricao valor categoria start parcelas gid nextId).length) :
    (adicionarRows descricao valor categoria start parcelas gid nextId)[i] =
      { id := nextId + i
        descricao := descricao
        valor := valor
        categoria := categoria
        data := addMonths start (i : Int)
        parcela_atual := (i : Int) + 1
        total_parcelas := parcelas
        agrupamento_id := some gid } := by
  simp [adicionarRows]

/-! ### Claim theorems -/

/-- **C1.** For every valid submission (any description, amount, category, parsed
start date, installment count ≥ 1), `/adicionar` appends exactly `parcelas` rows
to the store, all sharing the one freshly generated group id and the submitted
description, amount and category; the 0-based row `i` is dated `start` advanced
by `i` calendar months and carries installment index `i + 1`, and the dates are
strictly increasing in `i`, so the indices `1..parcelas` appear in date order. -/
theorem C1_adicionar_expands (s : Store) (descricao : String) (valor : ℚ)
    (categoria : String) (start : Date) (parcelas : Int) (gid : String) (nextId : Nat)
    (hp : 1 ≤ parcelas) :
    (adicionar s descricao valor categoria start parcelas gid nextId).gastos
      = s.gastos ++ adicionarRows descricao valor categoria start parcelas gid nextId ∧
    ((adicionarRows descricao valor categoria start parcelas gid nextId).length : Int)
      = parcelas ∧
    (∀ i, ∀ hi : i < (adicionarRows descricao valor categoria start parcelas gid nextId).length,
      (adicionarRows descricao valor categoria start parcelas gid nextId)[i].descricao = descricao ∧
      (adicionarRows descricao valor categoria start parcelas gid nextId)[i].valor = valor ∧
      (adicionarRows descricao valor categoria start parcelas gid nextId)[i].categoria = categoria ∧
      (adicionarRows descricao valor categoria start parcelas gid nextId)[i].agrupamento_id
        = some gid ∧
      (adicionarRows descricao valor categoria start parcelas gid nextId)[i].parcela_atual
        = (i : Int) + 1 ∧
      (adicionarRows descricao valor categoria start parcelas gid nextId)[i].data
        = addMonths start (i : Int)) ∧
    (∀ i j, ∀ hi : i < (adicionarRows descricao valor categoria start parcelas gid nextId).length,
      ∀ hj : j < (adicionarRows descricao valor categoria start parcelas gid nextId).length,
      i < j →
      dateLt (adicionarRows descricao valor categoria start parcelas gid nextId)[i].data
        (adicionarRows descricao valor categoria start parcelas gid nextId)[j].data = true) := by
  refine ⟨rfl, ?_, ?_, ?_⟩
  · rw [adicionarRows_length]; omega
  · intro i hi
    rw [adicionarRows_getElem descricao valor categoria start parcelas gid nextId i hi]
    exact ⟨rfl, rfl, rfl, rfl, rfl, rfl⟩
  · intro i j hi hj hij
    rw [adicionarRows_getElem descricao valor categoria start parcelas gid nextId i hi,
      adicionarRows_getElem descricao valor categoria start parcelas gid nextId j hj]
    exact addMonths_strictMono start (i : Int) (j : Int) (by exact_mod_cast hij)

/-- Witness for C1 at the spec's scenario: submission
("Aluguel", 1000, "Moradia", 2024-01-15, 3 installments). -/
theorem C1_adicionar_expands_witness :
    ((1 : Int) ≤ 3 ∧
      ((adicionarRows "Aluguel" 1000 "Moradia" ⟨2024, 1, 15⟩ 3 "g" 1).length : Int) = 3) ∧
    (adicionarRows "Aluguel" 1000 "Moradia" ⟨2024, 1, 15⟩ 3 "g" 1).map (fun r => r.data)
      = [⟨2024, 1, 15⟩, ⟨2024, 2, 15⟩, ⟨2024, 3, 15⟩] :=
  ⟨⟨by decide,
    (C1_adicionar_expands ⟨[], []⟩ "Aluguel" 1000 "Moradia" ⟨2024, 1, 15⟩ 3 "g" 1
      (by decide)).2.1⟩,
   by decide⟩

/-- **C2.** Every persisted installment row stores the submitted amount unchanged
(the amount is per-installment, never divided by the count); for `parcelas = 1`
the single row has installment index 1, installment count 1, and the submitted
amount. -/
theorem C2_per_installment_amount (descricao : String) (valor : ℚ) (categoria : String)
    (start : Date) (gid : String) (nextId : Nat) :
    (∀ parcelas : Int, ∀ r ∈ adicionarRows descricao valor categoria start parcelas gid nextId,
      r.valor = valor) ∧
    (adicionarRows descricao valor categoria start 1 gid nextId).length = 1 ∧
    (∀ r ∈ adicionarRows descricao valor categoria start 1 gid nextId,
      r.parcela_atual = 1 ∧ r.total_parcelas = 1 ∧ r.valor = valor) := by
  refine ⟨?_, by rw [adicionarRows_length]; rfl, ?_⟩
  · intro parcelas r hr
    simp only [adicionarRows, List.mem_map, List.mem_range] at hr
    obtain ⟨i, -, rfl⟩ := hr
    rfl
  · intro r hr
    simp only [adicionarRows, List.mem_map, List.mem_range] at hr
    obtain ⟨i, hi, rfl⟩ := hr
    have h0 : i = 0 := by omega
    subst h0
    exact ⟨rfl, rfl, rfl⟩

/-- Witness for C2 at a concrete single-installment submission. -/
theorem C2_per_installment_amount_witness :
    (adicionarRows "Luz" (157/2) "Contas" ⟨2024, 5, 10⟩ 1 "g" 4).length = 1 ∧
    ∀ r ∈ adicionarRows "Luz" (157/2) "Contas" ⟨2024, 5, 10⟩ 1 "g" 4,
      r.parcela_atual = 1 ∧ r.total_parcelas = 1 ∧ r.valor = 157/2 :=
  ⟨(C2_per_installment_amount "Luz" (157/2) "Contas" ⟨2024, 5, 10⟩ "g" 4).2.1,
   (C2_per_installment_amount "Luz" (157/2) "Contas" ⟨2024, 5, 10⟩ "g" 4).2.2⟩

/-- **C3.** For every store and month window (including the empty window), the
summary rendered by `/` satisfies: the sum of the per-category totals equals
`total_geral`, `total_geral` equals the sum of all expense amounts in the
window, and `saldo_estimado` is exactly `renda_mensal - total_geral` with no
clamping. -/
theorem C3_home_aggregation (s : Store) (mes : Nat) (ano : Int) :
    (home s mes ano).data.sum = (home s mes ano).total_geral ∧
    (home s mes ano).total_geral = ((gastosDoMes s mes ano).map fun g => g.valor).sum ∧
    (home s mes ano).saldo_estimado
      = (home s mes ano).renda_mensal - (home s mes ano).total_geral := by
  refine ⟨rfl, ?_, rfl⟩
  show ((categoriasDb (gastosDoMes s mes ano)).map Prod.snd).sum = _
  unfold categoriasDb
  rw [List.map_map]
  have h := sum_over_keys (fun g : Gasto => g.categoria) (fun g : Gasto => g.valor)
    ((gastosDoMes s mes ano).map (fun g => g.categoria)).dedup (gastosDoMes s mes ano)
    (List.nodup_dedup _)
    (fun x hx => List.mem_dedup.mpr (List.mem_map_of_mem (fun g : Gasto => g.categoria) hx))
  simpa using h

/-- **C4.** `renda_mensal` is the sum of the amounts of all income records in
the store, with no month filtering: it is identical across any two viewed
windows. The spec's scenario — incomes 3000 and 500, expenses summing 1200 in
the viewed month — yields `renda_mensal = 3500` and `saldo_estimado = 2300`
there, and `renda_mensal = 3500` in every other month as well. -/
theorem C4_income_not_windowed (s : Store) (mes₁ mes₂ : Nat) (ano₁ ano₂ : Int) :
    ((home s mes₁ ano₁).renda_mensal = (s.renda.map fun r => r.valor).sum ∧
     (home s mes₁ ano₁).renda_mensal = (home s mes₂ ano₂).renda_mensal) ∧
    (let s₀ : Store :=
      { gastos := [{ id := 1, descricao := "Mercado", valor := 1200, categoria := "Alimentação",
                     data := ⟨2024, 5, 10⟩, parcela_atual := 1, total_parcelas := 1,
                     agrupamento_id := none }]
        renda := [{ id := 1, descricao := "Salário", valor := 3000 },
                  { id := 2, descricao := "Freela", valor := 500 }] }
     (home s₀ 5 2024).renda_mensal = 3500 ∧ (home s₀ 5 2024).saldo_estimado = 2300 ∧
     (home s₀ 11 2030).renda_mensal = 3500 ∧ (home s₀ 11 2030).saldo_estimado = 3500) :=
  ⟨⟨rfl, rfl⟩, by
    refine ⟨?_, ?_, ?_, ?_⟩ <;>
      simp [home, gastosDoMes, inWindow, categoriasDb, List.filter, List.dedup] <;> norm_num⟩

/-- **C5.** Deleting by group id removes exactly the rows whose `agrupamento_id`
equals that id (rows with a different or NULL group id survive) and leaves the
income table unchanged; deleting one row by id removes exactly the rows with
that id and leaves the income table unchanged, so a sibling installment (same
group, different id) is never removed. -/
theorem C5_delete_semantics (s : Store) (gid : String) (id : Nat) (r : Gasto) :
    (r ∈ (deletar_serie s gid).gastos ↔ r ∈ s.gastos ∧ r.agrupamento_id ≠ some gid) ∧
    (deletar_serie s gid).renda = s.renda ∧
    (r ∈ (deletar s id).gastos ↔ r ∈ s.gastos ∧ r.id ≠ id) ∧
    (deletar s id).renda = s.renda ∧
    (∀ q ∈ s.gastos, q.id ≠ id → q ∈ (deletar s id).gastos) := by
  refine ⟨?_, rfl, ?_, rfl, ?_⟩
  · simp [deletar_serie, List.mem_filter]
  · simp [deletar, List.mem_filter]
  · intro q hq hne
    simp only [deletar, List.mem_filter]
    exact ⟨hq, by simpa using hne⟩

/-- Witness for C5: in a store holding a three-row group "g" plus an ungrouped
row, deleting row id 2 keeps its sibling id 3, and deleting group "g" keeps
the NULL-group row. -/
theorem C5_delete_semantics_witness :
    (let g1 : Gasto := ⟨1, "A", 10, "C", ⟨2024, 1, 5⟩, 1, 3, some "g"⟩
     let g2 : Gasto := ⟨2, "A", 10, "C", ⟨2024, 2, 5⟩, 2, 3, some "g"⟩
     let g3 : Gasto := ⟨3, "A", 10, "C", ⟨2024, 3, 5⟩, 3, 3, some "g"⟩
     let g4 : Gasto := ⟨4, "B", 7, "C", ⟨2024, 1, 6⟩, 1, 1, none⟩
     let s : Store := ⟨[g1, g2, g3, g4], []⟩
     g3 ∈ (deletar s 2).gastos ∧ g2 ∉ (deletar s 2).gastos ∧
     g4 ∈ (deletar_serie s "g").gastos ∧ g1 ∉ (deletar_serie s "g").gastos) := by
  intro g1 g2 g3 g4 s
  refine ⟨?_, ?_, ?_, ?_⟩
  · exact (C5_delete_semantics s "g" 2 g3).2.2.1.mpr ⟨by decide, by decide⟩
  · intro h
    exact absurd ((C5_delete_semantics s "g" 2 g2).2.2.1.mp h).2 (by decide)
  · exact (C5_delete_semantics s "g" 4 g4).1.mpr ⟨by decide, by decide⟩
  · intro h
    exact absurd ((C5_delete_semantics s "g" 4 g1).1.mp h).2 (by decide)

/-- **C6.** For every month `mes ∈ 1..12` and every year, taking the next
navigation window and then that window's previous window returns the original
pair; month 12's next window is (1, ano+1) and month 1's previous window is
(12, ano−1). -/
theorem C6_nav_roundtrip (mes : Nat) (ano : Int) (h1 : 1 ≤ mes) (h12 : mes ≤ 12) :
    ((navWindows ((navWindows mes ano).2.1) ((navWindows mes ano).2.2)).1 = (mes, ano)) ∧
    (navWindows 12 ano).2 = (1, ano + 1) ∧
    (navWindows 1 ano).1 = (12, ano - 1) := by
  unfold navWindows addMonths
  simp only [Prod.mk.injEq]
  refine ⟨⟨?_, ?_⟩, ⟨?_, ?_⟩, ⟨?_, ?_⟩⟩ <;> omega

/-- Witness for C6 at the year-boundary window (12, 2023). -/
theorem C6_nav_roundtrip_witness :
    (1 ≤ 12 ∧ 12 ≤ 12) ∧
    ((navWindows ((navWindows 12 2023).2.1) ((navWindows 12 2023).2.2)).1 = (12, 2023) ∧
     (navWindows 12 2023).2 = (1, 2024) ∧
     (navWindows 1 2023).1 = (12, 2022)) :=
  ⟨⟨by decide, by decide⟩, by
    have h := C6_nav_roundtrip 12 2023 (by decide) (by decide)
    refine ⟨h.1, h.2.1, ?_⟩
    have h' := C6_nav_roundtrip 1 2023 (by decide) (by decide)
    exact h'.2.2⟩

/-- **C7.** What `/adicionar` actually does for an installment count below 1:
`range(parcelas)` is empty, so no row is persisted, but no error of any kind is
raised — the handler runs to completion and the store is returned unchanged,
for a zero count and for a negative count alike. This refutes the claim that
such a submission fails with `InvalidInput`. -/
theorem C7_nonpositive_count_is_silent_noop (s : Store) (descricao : String) (valor : ℚ)
    (categoria : String) (start : Date) (gid : String) (nextId : Nat) :
    adicionar s descricao valor categoria start 0 gid nextId = s ∧
    adicionar s descricao valor categoria start (-1) gid nextId = s := by
  constructor <;> simp [adicionar, adicionarRows]

/-- **C8.** What the `/` handler actually does with a supplied month of 0:
`current_mes = mes if mes else today.month` tests Python truthiness, and `0` is
falsy, so the out-of-range month 0 is silently replaced by today's month
instead of failing; a non-zero month such as 13 is passed through unchanged.
This refutes the claim that every out-of-range month fails with
`InvalidWindow`. -/
theorem C8_mes_zero_silently_normalized (todayMes : Int) :
    resolveMes (some 0) todayMes = todayMes ∧
    resolveMes none todayMes = todayMes ∧
    resolveMes (some 13) todayMes = 13 :=
  ⟨rfl, rfl, rfl⟩

theorem insertAll_eq (ok : Gasto → Bool) :
    ∀ (rows acc : List Gasto),
      insertAll ok acc rows = if rows.all ok then some (acc ++ rows) else none := by
  intro rows
  induction rows with
  | nil => intro acc; simp [insertAll]
  | cons r rs ih =>
    intro acc
    by_cases h : ok r = true <;>
      simp [insertAll, h, ih, List.append_assoc]

/-- **C9.** The insert loop of `/adicionar` runs inside one `with conn:`
transaction: for every per-row failure oracle, the resulting store is either
exactly the original store or the store with all `parcelas` rows appended —
never a proper subset; if every row insert succeeds the batch commits whole,
and if any row insert fails the store is unchanged. -/
theorem C9_adicionar_atomic (ok : Gasto → Bool) (s : Store) (descricao : String) (valor : ℚ)
    (categoria : String) (start : Date) (parcelas : Int) (gid : String) (nextId : Nat) :
    (adicionarTx ok s descricao valor categoria start parcelas gid nextId = s ∨
     adicionarTx ok s descricao valor categoria start parcelas gid nextId
       = adicionar s descricao valor categoria start parcelas gid nextId) ∧
    ((∀ r ∈ adicionarRows descricao valor categoria start parcelas gid nextId, ok r = true) →
      adicionarTx ok s descricao valor categoria start parcelas gid nextId
        = adicionar s descricao valor categoria start parcelas gid nextId) ∧
    ((∃ r ∈ adicionarRows descricao valor categoria start parcelas gid nextId, ok r = false) →
      adicionarTx ok s descricao valor categoria start parcelas gid nextId = s) := by
  have hkey := insertAll_eq ok (adicionarRows descricao valor categoria start parcelas gid nextId)
    s.gastos
  refine ⟨?_, ?_, ?_⟩
  · by_cases hall : (adicionarRows descricao valor categoria start parcelas gid nextId).all ok = true
    · right
      simp only [adicionarTx, hkey, hall, if_true]
      rfl
    · left
      simp [adicionarTx, hkey, hall]
  · intro hok
    have hall : (adicionarRows descricao valor categoria start parcelas gid nextId).all ok = true :=
      List.all_eq_true.mpr hok
    simp only [adicionarTx, hkey, hall, if_true]
    rfl
  · intro ⟨r, hr, hfail⟩
    have hall : ¬((adicionarRows descricao valor categoria start parcelas gid nextId).all ok = true) := by
      intro hall
      have := List.all_eq_true.mp hall r hr
      rw [hfail] at this
      exact Bool.false_ne_true this
    simp [adicionarTx, hkey, hall]

/-- Witness for C9: with an oracle that rejects the second installment of a
three-installment batch, the store comes back unchanged; with an oracle that
accepts everything, all three rows are appended. -/
theorem C9_adicionar_atomic_witness :
    (let bad : Gasto → Bool := fun r => decide (r.parcela_atual ≠ 2)
     let s : Store := ⟨[], []⟩
     adicionarTx bad s "TV" 300 "Lazer" ⟨2024, 1, 10⟩ 3 "g" 1 = s) ∧
    (let s : Store := ⟨[], []⟩
     adicionarTx (fun _ => true) s "TV" 300 "Lazer" ⟨2024, 1, 10⟩ 3 "g" 1
       = adicionar s "TV" 300 "Lazer" ⟨2024, 1, 10⟩ 3 "g" 1) := by
  constructor
  · intro bad s
    refine (C9_adicionar_atomic bad s "TV" 300 "Lazer" ⟨2024, 1, 10⟩ 3 "g" 1).2.2 ?_
    refine ⟨(adicionarRows "TV" 300 "Lazer" ⟨2024, 1, 10⟩ 3 "g" 1)[1], ?_, ?_⟩
    · exact List.getElem_mem (by simp [adicionarRows])
    · rw [adicionarRows_getElem "TV" 300 "Lazer" ⟨2024, 1, 10⟩ 3 "g" 1 1
        (by simp [adicionarRows])]
      decide
  · intro s
    exact (C9_adicionar_atomic (fun _ => true) s "TV" 300 "Lazer" ⟨2024, 1, 10⟩ 3 "g" 1).2.1
      (fun r _ => rfl)

/-- **C10.** Each persisted installment row `i` (0-based) is dated in the
calendar month reached by advancing the start date's month by `i` with year
rollover (expressed through the linear month index `12·year + month − 1`), the
stored month is a real month in `1..12`, and the day-of-month is
`min(start.day, daysInMonth(target))` — clamped to the last valid day of the
target month when the start day overflows it. -/
theorem C10_installment_date_clamping (descricao : String) (valor : ℚ) (categoria : String)
    (start : Date) (parcelas : Int) (gid : String) (nextId : Nat) (i : Nat)
    (hi : i < (adicionarRows descricao valor categoria start parcelas gid nextId).length) :
    12 * (adicionarRows descricao valor categoria start parcelas gid nextId)[i].data.year
        + ((adicionarRows descricao valor categoria start parcelas gid nextId)[i].data.month : Int)
        - 1
      = 12 * start.year + (start.month : Int) - 1 + i ∧
    1 ≤ (adicionarRows descricao valor categoria start parcelas gid nextId)[i].data.month ∧
    (adicionarRows descricao valor categoria start parcelas gid nextId)[i].data.month ≤ 12 ∧
    (adicionarRows descricao valor categoria start parcelas gid nextId)[i].data.day
      = min start.day
          (daysInMonth (adicionarRows descricao valor categoria start parcelas gid nextId)[i].data.year
            (adicionarRows descricao valor categoria start parcelas gid nextId)[i].data.month) := by
  rw [adicionarRows_getElem descricao valor categoria start parcelas gid nextId i hi]
  exact addMonths_month_index start (i : Nat)

/-- Witness for C10 at the spec's overflow scenario: 3 installments starting
2023-01-31 are dated Jan 31, Feb 28, Mar 31 (and Feb 29 when starting in the
leap year 2024). -/
theorem C10_installment_date_clamping_witness :
    ((adicionarRows "X" 50 "C" ⟨2023, 1, 31⟩ 3 "g" 1).length = 3 ∧
     12 * (adicionarRows "X" 50 "C" ⟨2023, 1, 31⟩ 3 "g" 1)[1].data.year
         + ((adicionarRows "X" 50 "C" ⟨2023, 1, 31⟩ 3 "g" 1)[1].data.month : Int) - 1
       = 12 * 2023 + 1 - 1 + 1) ∧
    (adicionarRows "X" 50 "C" ⟨2023, 1, 31⟩ 3 "g" 1).map (fun r => r.data)
      = [⟨2023, 1, 31⟩, ⟨2023, 2, 28⟩, ⟨2023, 3, 31⟩] ∧
    (adicionarRows "X" 50 "C" ⟨2024, 1, 31⟩ 3 "g" 1).map (fun r => r.data)
      = [⟨2024, 1, 31⟩, ⟨2024, 2, 29⟩, ⟨2024, 3, 31⟩] := by
  refine ⟨⟨by decide, ?_⟩, by decide, by decide⟩
  exact (C10_installment_date_clamping "X" 50 "C" ⟨2023, 1, 31⟩ 3 "g" 1 1 (by decide)).1

end Financeiro
